import Mathlib

/-!
Verification of the modal orchestration core and the popover placement
engine of the react-native-ui-kitten repository.

The modal side embeds `ModalPanel` (modalPanel.component.tsx) and the
singleton `ModalServiceType` (modal.service): the panel keeps an
insertion-ordered mapping from string identifiers to overlay records
(a JavaScript `Map`), and the service holds an optional reference to the
currently mounted presenter, forwarding `show` and `hide` to it.

The popover side embeds the visibility and measurement flow of
`PopoverComponent` (popover.component.tsx) and, for the placement
algebra that lives in the popover's `type` module, definitions modelled
from the specification.

`ViewPager.onPanResponderRelease` is embedded with rational numbers for
the gesture velocity and displacement.
-/

namespace UIKitten

/-- Overlay dismiss configuration passed through `show`
(`ModalPresentingConfig` in modal.service); the backdrop callback is
opaque and represented by a numeric tag. -/
structure ModalPresentingConfig where
  allowBackdrop : Bool
  onBackdropPress : Nat
deriving Repr, DecidableEq

/-- An entry of the panel's mapping (`ModalPanelChild`): the dismiss
configuration spread together with the rendered element, which is opaque
and represented by a numeric tag. -/
structure ModalPanelChild where
  allowBackdrop : Bool
  onBackdropPress : Nat
  element : Nat
deriving Repr, DecidableEq

/-- A JavaScript `Map.prototype.set` over the insertion-ordered
association list: an existing key is updated in place, a new key is
appended at the end. -/
def mapSet {α : Type} (m : List (String × α)) (k : String) (v : α) :
    List (String × α) :=
  if k ∈ m.map Prod.fst then
    m.map (fun p => if p.1 = k then (k, v) else p)
  else
    m ++ [(k, v)]

/-- A JavaScript `Map.prototype.delete`: the entry with the given key is
removed, all other entries stay in order. -/
def mapDelete {α : Type} (m : List (String × α)) (k : String) :
    List (String × α) :=
  m.filter (fun p => p.1 ≠ k)

/-- The state of `ModalPanel`: its `components` mapping, an
insertion-ordered map from identifier to overlay record. -/
structure ModalPanelState where
  components : List (String × ModalPanelChild)
deriving Repr, DecidableEq

/-- `ModalPanel.hide`: deletes the identifier from the mapping and
always returns the empty string. -/
def ModalPanel.hide (s : ModalPanelState) (identifier : String) :
    ModalPanelState × String :=
  (⟨mapDelete s.components identifier⟩, "")

/-- `ModalPanel.show`: inserts the overlay record under the key produced
by `generateUniqueComponentKey` and returns that key. The key generator
is `Math.random().toString(36).substring(2)` in the source; the drawn
key is therefore a parameter here. -/
def ModalPanel.show (s : ModalPanelState) (key : String) (element : Nat)
    (config : ModalPresentingConfig) : ModalPanelState × String :=
  (⟨mapSet s.components key
      ⟨config.allowBackdrop, config.onBackdropPress, element⟩⟩, key)

/-- `ModalPanel.renderModals`: the overlay records in the order the
mapping holds them (`Array.from(this.state.components.values())`). -/
def ModalPanel.renderModals (s : ModalPanelState) : List ModalPanelChild :=
  s.components.map Prod.snd

/-- The keys currently present in the panel's mapping. -/
def panelKeys (s : ModalPanelState) : List String :=
  s.components.map Prod.fst

/-- A consecutive sequence of `ModalPanel.show` calls with no
intervening `hide`: `gen` is the stream of keys drawn from
`generateUniqueComponentKey` and `n` counts the draws made so far.
Returns the final state and the list of returned identifiers. -/
def ModalPanel.showSeq (gen : Nat → String)
    (calls : List (Nat × ModalPresentingConfig)) (s : ModalPanelState)
    (n : Nat) : ModalPanelState × List String :=
  match calls with
  | [] => (s, [])
  | (e, c) :: rest =>
    let r := ModalPanel.show s (gen n) e c
    let rr := ModalPanel.showSeq gen rest r.1 (n + 1)
    (rr.1, r.2 :: rr.2)

/-- A mounted presenter as the service sees it: the `ModalPresenting`
object is a `ModalPanel` instance, distinguished from other instances by
an identity tag `pid` and carrying its own mapping state. -/
structure Presenter where
  pid : Nat
  st : ModalPanelState
deriving Repr, DecidableEq

/-- `ModalServiceType.mount`: `this.panel = panel`; the previous binding
is overwritten unconditionally. -/
def ModalServiceType.mount (_s : Option Presenter)
    (panel : Option Presenter) : Option Presenter :=
  panel

/-- `ModalServiceType.unmount`: `this.panel = null`. -/
def ModalServiceType.unmount (_s : Option Presenter) : Option Presenter :=
  none

/-- `ModalServiceType.show`: when a panel is mounted, delegates to the
panel's `show` and returns its identifier; otherwise the TypeScript
method falls through and returns `undefined`, embedded as `none`. -/
def ModalServiceType.show (s : Option Presenter) (key : String)
    (element : Nat) (config : ModalPresentingConfig) :
    Option Presenter × Option String :=
  match s with
  | some p =>
    let r := ModalPanel.show p.st key element config
    (some ⟨p.pid, r.1⟩, some r.2)
  | none => (none, none)

/-- `ModalServiceType.hide`: when a panel is mounted, delegates to the
panel's `hide`; otherwise returns `undefined`, embedded as `none`. -/
def ModalServiceType.hide (s : Option Presenter) (identifier : String) :
    Option Presenter × Option String :=
  match s with
  | some p =>
    let r := ModalPanel.hide p.st identifier
    (some ⟨p.pid, r.1⟩, some r.2)
  | none => (none, none)

/-- The state of a popover together with the mounted presenter panel it
talks to: `visible` is the prop, `popoverModalId` the private field of
`PopoverComponent` (initially the empty string), and `panel` the mapping
of the mounted `ModalPanel` that receives the delegated show and hide
calls. -/
structure PopoverMachine where
  visible : Bool
  popoverModalId : String
  panel : ModalPanelState
deriving Repr, DecidableEq

/-- `PopoverComponent.componentDidUpdate` restricted to the `visible`
prop: nothing happens unless the prop changed; turning visible on only
resets the layout so that re-measuring starts; turning it off assigns
`this.popoverModalId = ModalService.hide(this.popoverModalId)`. -/
def popoverSetVisible (s : PopoverMachine) (b : Bool) : PopoverMachine :=
  if s.visible = b then s
  else if b then
    { s with visible := true }
  else
    let r := ModalPanel.hide s.panel s.popoverModalId
    { visible := false, popoverModalId := r.2, panel := r.1 }

/-- `PopoverComponent.onMeasure` followed by `showPopoverModal`: when
the measurement callback fires, the modal is shown only if the popover
is still visible; `key` is the identifier drawn by the panel and
`element`, `config` the cloned popover element with its dismiss
configuration. -/
def popoverMeasureDone (s : PopoverMachine) (key : String) (element : Nat)
    (config : ModalPresentingConfig) : PopoverMachine :=
  if s.visible then
    let r := ModalPanel.show s.panel key element config
    { s with panel := r.1, popoverModalId := r.2 }
  else s

/-- Modelled from the spec: the 12 directional placements of the
popover's `type` module (`PopoverPlacements`), whose implementation is
not part of the sources at hand; the raw string values are the ones the
popover documents (`bottom`, `bottom start`, ..., `right end`). -/
inductive PopoverPlacement
  | bottom | bottomStart | bottomEnd
  | top | topStart | topEnd
  | left | leftStart | leftEnd
  | right | rightStart | rightEnd
deriving Repr, DecidableEq

/-- Modelled from the spec: the primary side of a placement. -/
inductive PlacementSide
  | top | bottom | left | right
deriving Repr, DecidableEq

/-- Modelled from the spec: the secondary alignment of a placement;
`center` is the alignment of the plain placements. -/
inductive PlacementAlignment
  | center | start | end'
deriving Repr, DecidableEq

/-- Modelled from the spec: the 180-degree opposite of a primary side. -/
def PlacementSide.opposite : PlacementSide → PlacementSide
  | .top => .bottom
  | .bottom => .top
  | .left => .right
  | .right => .left

/-- The primary side carried by each placement. -/
def PopoverPlacement.side : PopoverPlacement → PlacementSide
  | .bottom | .bottomStart | .bottomEnd => .bottom
  | .top | .topStart | .topEnd => .top
  | .left | .leftStart | .leftEnd => .left
  | .right | .rightStart | .rightEnd => .right

/-- The secondary alignment carried by each placement. -/
def PopoverPlacement.alignment : PopoverPlacement → PlacementAlignment
  | .bottom | .top | .left | .right => .center
  | .bottomStart | .topStart | .leftStart | .rightStart => .start
  | .bottomEnd | .topEnd | .leftEnd | .rightEnd => .end'

/-- The raw string value of each placement, as documented in
popover.component.tsx. -/
def PopoverPlacement.rawValue : PopoverPlacement → String
  | .bottom => "bottom"
  | .bottomStart => "bottom start"
  | .bottomEnd => "bottom end"
  | .top => "top"
  | .topStart => "top start"
  | .topEnd => "top end"
  | .left => "left"
  | .leftStart => "left start"
  | .leftEnd => "left end"
  | .right => "right"
  | .rightStart => "right start"
  | .rightEnd => "right end"

/-- Modelled from the spec: `PopoverPlacement.reverse` rotates the
primary side by 180 degrees and keeps the secondary alignment. -/
def PopoverPlacement.reverse : PopoverPlacement → PopoverPlacement
  | .bottom => .top
  | .bottomStart => .topStart
  | .bottomEnd => .topEnd
  | .top => .bottom
  | .topStart => .bottomStart
  | .topEnd => .bottomEnd
  | .left => .right
  | .leftStart => .rightStart
  | .leftEnd => .rightEnd
  | .right => .left
  | .rightStart => .leftStart
  | .rightEnd => .leftEnd

/-- Modelled from the spec: `PopoverPlacements.parse` maps a raw string
to its placement and substitutes the fallback for an unrecognized
string. -/
def PopoverPlacements.parse (raw : String) (fallback : PopoverPlacement) :
    PopoverPlacement :=
  if raw = "bottom" then .bottom
  else if raw = "bottom start" then .bottomStart
  else if raw = "bottom end" then .bottomEnd
  else if raw = "top" then .top
  else if raw = "top start" then .topStart
  else if raw = "top end" then .topEnd
  else if raw = "left" then .left
  else if raw = "left start" then .leftStart
  else if raw = "left end" then .leftEnd
  else if raw = "right" then .right
  else if raw = "right start" then .rightStart
  else if raw = "right end" then .rightEnd
  else fallback

/-- `PLACEMENT_DEFAULT = PopoverPlacements.BOTTOM`
(popover.component.tsx, line 55). -/
def PLACEMENT_DEFAULT : PopoverPlacement := PopoverPlacement.bottom

/-- A measured rectangle in screen coordinates; pixel values are
rational so that centering is exact. -/
structure Frame where
  x : ℚ
  y : ℚ
  width : ℚ
  height : ℚ
deriving Repr, DecidableEq

/-- Modelled from the spec: the per-edge pixel offsets parsed from the
anchor's style declarations. -/
structure OffsetRect where
  top : ℚ
  bottom : ℚ
  left : ℚ
  right : ℚ
deriving Repr, DecidableEq

/-- Modelled from the spec: `PopoverPlacement.frame` positions the
overlay flush against the anchor on the placement's primary side,
aligns it on the secondary axis (`center` centers it on the anchor's
midpoint, `start` and `end` align the corresponding edges), and adds
the per-edge offsets to the computed origin. `content` is the overlay's
measured rectangle and `child` the anchor's. -/
def PopoverPlacement.frame (placement : PopoverPlacement)
    (content child : Frame) (offsets : OffsetRect) : Frame :=
  let primary : ℚ × ℚ :=
    match placement.side with
    | .bottom => (0, child.y + child.height)
    | .top => (0, child.y - content.height)
    | .left => (child.x - content.width, 0)
    | .right => (child.x + child.width, 0)
  let secondary : ℚ × ℚ :=
    match placement.side, placement.alignment with
    | .bottom, .center | .top, .center =>
      (child.x + (child.width - content.width) / 2, 0)
    | .bottom, .start | .top, .start => (child.x, 0)
    | .bottom, .end' | .top, .end' =>
      (child.x + child.width - content.width, 0)
    | .left, .center | .right, .center =>
      (0, child.y + (child.height - content.height) / 2)
    | .left, .start | .right, .start => (0, child.y)
    | .left, .end' | .right, .end' =>
      (0, child.y + child.height - content.height)
  Frame.mk (primary.1 + secondary.1 + offsets.left - offsets.right)
    (primary.2 + secondary.2 + offsets.top - offsets.bottom)
    content.width content.height

/-- `PopoverComponent.getPopoverFrame`: parses the raw placement with
`PLACEMENT_DEFAULT` as fallback and hands the measured content and
child rectangles, with the offsets found on the child's style, to the
resolved placement's `frame`. -/
def getPopoverFrame (content child : Frame) (offsets : OffsetRect)
    (rawPlacement : String) : Frame :=
  (PopoverPlacements.parse rawPlacement PLACEMENT_DEFAULT).frame
    content child offsets

/-- `ViewPager.onPanResponderRelease`: decides the page index handed to
`scrollToIndex` from the gesture's velocity `vx` and displacement `dx`
and the page width `contentWidth`; values are rational embeddings of
the JavaScript numbers. -/
def ViewPager.onPanResponderRelease (selectedIndex : Int)
    (contentWidth vx dx : ℚ) : Int :=
  if |vx| ≥ 1/2 ∨ |dx| ≥ 1/2 * contentWidth then
    if dx > 0 then selectedIndex - 1 else selectedIndex + 1
  else
    selectedIndex

end UIKitten

namespace UIKitten

/-- The identifiers returned by a run of consecutive `show` calls are
exactly the keys drawn from the generator, in order. -/
theorem showSeq_returned_ids (gen : Nat → String)
    (calls : List (Nat × ModalPresentingConfig)) :
    ∀ (s : ModalPanelState) (n : Nat),
      (ModalPanel.showSeq gen calls s n).2
        = (List.range calls.length).map (fun i => gen (n + i)) := by
  induction calls with
  | nil =>
    intro s n
    rfl
  | cons hd tl ih =>
    intro s n
    obtain ⟨e, c⟩ := hd
    show gen n :: (ModalPanel.showSeq gen tl _ (n + 1)).2 = _
    rw [ih, List.length_cons, List.range_succ_eq_map, List.map_cons,
      List.map_map]
    refine List.cons_eq_cons.mpr ⟨by rw [Nat.add_zero], ?_⟩
    apply List.map_congr_left
    intro i _
    show gen (n + 1 + i) = gen (n + (i + 1))
    congr 1
    omega

/-- Updating an existing key leaves the key list of the mapping
unchanged. -/
theorem mapSet_keys_of_mem {α : Type} (m : List (String × α)) (k : String)
    (v : α) (h : k ∈ m.map Prod.fst) :
    (mapSet m k v).map Prod.fst = m.map Prod.fst := by
  unfold mapSet
  rw [if_pos h, List.map_map]
  apply List.map_congr_left
  intro p _
  by_cases hp : p.1 = k
  · simp [Function.comp, hp]
  · simp [Function.comp, hp]

/-- Inserting a fresh key appends the entry at the end of the
mapping. -/
theorem mapSet_of_not_mem {α : Type} (m : List (String × α)) (k : String)
    (v : α) (h : k ∉ m.map Prod.fst) :
    mapSet m k v = m ++ [(k, v)] := by
  unfold mapSet
  rw [if_neg h]

/-- Deleting a key yields a key list that is a sublist of the original
key list. -/
theorem mapDelete_keys_sublist {α : Type} (m : List (String × α))
    (k : String) :
    ((mapDelete m k).map Prod.fst).Sublist (m.map Prod.fst) :=
  (List.filter_sublist m).map Prod.fst

/-- C2: when no presenter is mounted, `ModalService.show` and
`ModalService.hide` leave the binding untouched and return the absent
value (`undefined`, embedded as `none`) for every argument; the
unmounted registry is a no-op dispatcher. -/
theorem C2_unmounted_service_noop (key : String) (element : Nat)
    (config : ModalPresentingConfig) (identifier : String) :
    ModalServiceType.show none key element config = (none, none) ∧
    ModalServiceType.hide none identifier = (none, none) :=
  ⟨rfl, rfl⟩

/-- C4: mounting replaces the previous presenter binding, so after
`mount(P1)` then `mount(P2)` the binding is `P2`, a subsequent `show`
delegates to `P2`'s own `show`, and the outcome of that `show` does not
depend on `P1` in any way. -/
theorem C4_mount_last_writer_wins (s : Option Presenter)
    (p1 p2 : Presenter) (key : String) (element : Nat)
    (config : ModalPresentingConfig) :
    ModalServiceType.mount (ModalServiceType.mount s (some p1)) (some p2)
      = some p2 ∧
    ModalServiceType.show
        (ModalServiceType.mount (ModalServiceType.mount s (some p1))
          (some p2)) key element config
      = (some ⟨p2.pid, (ModalPanel.show p2.st key element config).1⟩,
         some (ModalPanel.show p2.st key element config).2) ∧
    (∀ q1 : Presenter,
      ModalServiceType.show
          (ModalServiceType.mount (ModalServiceType.mount s (some q1))
            (some p2)) key element config
        = ModalServiceType.show
            (ModalServiceType.mount (ModalServiceType.mount s (some p1))
              (some p2)) key element config) :=
  ⟨rfl, rfl, fun _ => rfl⟩

/-- C9: `unmount` clears the binding unconditionally, whichever
presenter triggered the teardown: after `mount(P1)`, `mount(P2)`,
`unmount()` the binding is `none`, every `show`/`hide` returns the
absent value until the next `mount`, and a later `mount(P3)` makes
`show` delegate to `P3` again. -/
theorem C9_unmount_unconditional (s : Option Presenter)
    (p1 p2 p3 : Presenter) (key : String) (element : Nat)
    (config : ModalPresentingConfig) (identifier : String) :
    ModalServiceType.unmount
        (ModalServiceType.mount (ModalServiceType.mount s (some p1))
          (some p2)) = none ∧
    ModalServiceType.show
        (ModalServiceType.unmount
          (ModalServiceType.mount (ModalServiceType.mount s (some p1))
            (some p2))) key element config = (none, none) ∧
    ModalServiceType.hide
        (ModalServiceType.unmount
          (ModalServiceType.mount (ModalServiceType.mount s (some p1))
            (some p2))) identifier = (none, none) ∧
    ModalServiceType.show
        (ModalServiceType.mount
          (ModalServiceType.unmount
            (ModalServiceType.mount (ModalServiceType.mount s (some p1))
              (some p2))) (some p3)) key element config
      = (some ⟨p3.pid, (ModalPanel.show p3.st key element config).1⟩,
         some (ModalPanel.show p3.st key element config).2) :=
  ⟨rfl, rfl, rfl, rfl⟩

/-- C3: `ModalPanel.hide` always returns the empty string, hiding twice
with the same identifier equals hiding once, and hiding an identifier
absent from the mapping leaves the state unchanged. -/
theorem C3_hide_idempotent (s : ModalPanelState) (x : String) :
    (ModalPanel.hide s x).2 = "" ∧
    ModalPanel.hide (ModalPanel.hide s x).1 x = ModalPanel.hide s x ∧
    ((∀ p ∈ s.components, p.1 ≠ x) → (ModalPanel.hide s x).1 = s) := by
  refine ⟨rfl, ?_, ?_⟩
  · simp [ModalPanel.hide, mapDelete, List.filter_filter]
  · intro h
    simp only [ModalPanel.hide, mapDelete]
    have : s.components.filter (fun p => p.1 ≠ x) = s.components := by
      rw [List.filter_eq_self]
      intro a ha
      exact decide_eq_true (h a ha)
    rw [this]

/-- C3 witness: the theorem applied at a one-entry mapping and an
identifier not present in it. -/
theorem C3_hide_idempotent_witness :
    (ModalPanel.hide ⟨[("a", ⟨true, 0, 0⟩)]⟩ "b").1
      = (⟨[("a", ⟨true, 0, 0⟩)]⟩ : ModalPanelState) ∧
    (ModalPanel.hide ⟨[("a", ⟨true, 0, 0⟩)]⟩ "b").2 = "" :=
  ⟨(C3_hide_idempotent ⟨[("a", ⟨true, 0, 0⟩)]⟩ "b").2.2 (by decide),
   (C3_hide_idempotent ⟨[("a", ⟨true, 0, 0⟩)]⟩ "b").1⟩

/-- C5: when the popover's visibility is toggled on and back off before
the measurement callback fires, the callback is a complete no-op: the
pending show is cancelled, and the panel's mapping after the retracted
request holds no new overlay (it is the original mapping with only the
popover's previous identifier deleted). -/
theorem C5_retracted_show_cancelled (s : PopoverMachine) (key : String)
    (element : Nat) (config : ModalPresentingConfig)
    (h : s.visible = false) :
    popoverMeasureDone (popoverSetVisible (popoverSetVisible s true) false)
        key element config
      = popoverSetVisible (popoverSetVisible s true) false ∧
    (popoverSetVisible (popoverSetVisible s true) false).panel.components
      = mapDelete s.panel.components s.popoverModalId := by
  simp [popoverSetVisible, popoverMeasureDone, h, ModalPanel.hide]

/-- C5 witness: the theorem applied to a hidden popover whose panel
already holds one foreign overlay. -/
theorem C5_retracted_show_cancelled_witness :
    popoverMeasureDone
        (popoverSetVisible
          (popoverSetVisible ⟨false, "", ⟨[("z", ⟨true, 0, 0⟩)]⟩⟩ true)
          false) "k" 7 ⟨true, 0⟩
      = popoverSetVisible
          (popoverSetVisible ⟨false, "", ⟨[("z", ⟨true, 0, 0⟩)]⟩⟩ true)
          false :=
  (C5_retracted_show_cancelled ⟨false, "", ⟨[("z", ⟨true, 0, 0⟩)]⟩⟩ "k" 7
    ⟨true, 0⟩ rfl).1

/-- C10: on gesture release the pager scrolls to the adjacent page
(`selectedIndex - 1` for a positive displacement, `selectedIndex + 1`
otherwise) exactly when `|vx| >= 0.5` or `|dx| >= 0.5 * contentWidth`,
and scrolls back to the current page otherwise. -/
theorem C10_release_threshold (selectedIndex : Int)
    (contentWidth vx dx : ℚ) :
    (ViewPager.onPanResponderRelease selectedIndex contentWidth vx dx
        = (if dx > 0 then selectedIndex - 1 else selectedIndex + 1)
      ↔ (|vx| ≥ 1/2 ∨ |dx| ≥ 1/2 * contentWidth)) ∧
    (¬(|vx| ≥ 1/2 ∨ |dx| ≥ 1/2 * contentWidth) →
      ViewPager.onPanResponderRelease selectedIndex contentWidth vx dx
        = selectedIndex) := by
  constructor
  · unfold ViewPager.onPanResponderRelease
    by_cases hc : |vx| ≥ 1/2 ∨ |dx| ≥ 1/2 * contentWidth
    · rw [if_pos hc]
      exact iff_of_true rfl hc
    · rw [if_neg hc]
      constructor
      · intro h
        exfalso
        by_cases hd : dx > 0
        · rw [if_pos hd] at h
          omega
        · rw [if_neg hd] at h
          omega
      · intro h
        exact absurd h hc
  · intro h
    unfold ViewPager.onPanResponderRelease
    rw [if_neg h]

/-- C10 witness: a fast rightward fling from page 0 lands on page -1
(the code clamps nowhere), and a slow short drag stays on page 0. -/
theorem C10_release_threshold_witness :
    ViewPager.onPanResponderRelease 0 100 1 5 = -1 ∧
    ViewPager.onPanResponderRelease 0 100 (1/4) 5 = 0 := by
  constructor
  · have h := (C10_release_threshold 0 100 1 5).1.mpr
      (Or.inl (by rw [abs_one]; norm_num))
    rw [if_pos (by norm_num : (5:ℚ) > 0)] at h
    simpa using h
  · refine (C10_release_threshold 0 100 (1/4) 5).2 ?_
    push_neg
    rw [abs_of_nonneg (by norm_num : (0:ℚ) ≤ 1/4),
      abs_of_nonneg (by norm_num : (0:ℚ) ≤ 5)]
    norm_num

/-- C1 counterexample: `generateUniqueComponentKey` is
`Math.random().toString(36).substring(2)` with no freshness check
against the registry, so when the random source repeats a value (here
the draw stream that yields `"a"` twice), two consecutive `show` calls
with no intervening `hide` return identifiers that are not pairwise
distinct, and the second draw is already a key of the mapping. -/
theorem C1_duplicate_ids_counterexample :
    ¬ (ModalPanel.showSeq (fun _ => "a")
        [(0, ⟨true, 0⟩), (1, ⟨true, 0⟩)] ⟨[]⟩ 0).2.Nodup ∧
    "a" ∈ panelKeys (ModalPanel.show ⟨[]⟩ "a" 0 ⟨true, 0⟩).1 := by
  exact ⟨by decide, by decide⟩

/-- C1 (amended): each `show` returns exactly the key drawn from the
random source and inserts it without checking it against the current
keys, so the identifiers returned by a run of consecutive `show` calls
with no intervening `hide` are the drawn keys in order, and they are
pairwise distinct whenever the drawn keys are pairwise distinct. -/
theorem C1_ids_distinct_iff_generated (gen : Nat → String)
    (calls : List (Nat × ModalPresentingConfig)) (s : ModalPanelState)
    (n : Nat)
    (h : ((List.range calls.length).map (fun i => gen (n + i))).Nodup) :
    (ModalPanel.showSeq gen calls s n).2
      = (List.range calls.length).map (fun i => gen (n + i)) ∧
    (ModalPanel.showSeq gen calls s n).2.Nodup := by
  refine ⟨showSeq_returned_ids gen calls s n, ?_⟩
  rw [showSeq_returned_ids gen calls s n]
  exact h

/-- C1 witness: two shows under a draw stream with two distinct values
return distinct identifiers. -/
theorem C1_ids_distinct_witness :
    (ModalPanel.showSeq (fun i => if i = 0 then "a" else "b")
      [(0, ⟨true, 0⟩), (1, ⟨true, 0⟩)] ⟨[]⟩ 0).2.Nodup :=
  (C1_ids_distinct_iff_generated (fun i => if i = 0 then "a" else "b")
    [(0, ⟨true, 0⟩), (1, ⟨true, 0⟩)] ⟨[]⟩ 0 (by decide)).2

/-- C8: starting from a mapping with pairwise-distinct keys, both
`show` and `hide` preserve key distinctness, and a `show` under a fresh
key appends its record at the end of the mapping, so `renderModals`
renders it last (on top). -/
theorem C8_ordered_unique_registry (s : ModalPanelState) (k : String)
    (e : Nat) (c : ModalPresentingConfig) (x : String)
    (h : (panelKeys s).Nodup) :
    (panelKeys (ModalPanel.show s k e c).1).Nodup ∧
    (panelKeys (ModalPanel.hide s x).1).Nodup ∧
    (k ∉ panelKeys s →
      (ModalPanel.show s k e c).1.components
        = s.components ++ [(k, ⟨c.allowBackdrop, c.onBackdropPress, e⟩)] ∧
      ModalPanel.renderModals (ModalPanel.show s k e c).1
        = ModalPanel.renderModals s
            ++ [⟨c.allowBackdrop, c.onBackdropPress, e⟩]) := by
  refine ⟨?_, ?_, ?_⟩
  · show ((mapSet s.components k _).map Prod.fst).Nodup
    by_cases hk : k ∈ s.components.map Prod.fst
    · rw [mapSet_keys_of_mem _ _ _ hk]
      exact h
    · rw [mapSet_of_not_mem _ _ _ hk, List.map_append]
      rw [List.nodup_append]
      refine ⟨h, List.nodup_singleton _, ?_⟩
      intro a ha hb
      rw [List.map_singleton, List.mem_singleton] at hb
      subst hb
      exact hk ha
  · show ((mapDelete s.components x).map Prod.fst).Nodup
    exact h.sublist (mapDelete_keys_sublist s.components x)
  · intro hk
    constructor
    · show (⟨mapSet s.components k _⟩ : ModalPanelState).components = _
      rw [mapSet_of_not_mem _ _ _ hk]
    · show (mapSet s.components k _).map Prod.snd = _
      rw [mapSet_of_not_mem _ _ _ hk, List.map_append]
      rfl

/-- C8 witness: showing under the fresh key `"b"` over a one-entry
mapping appends the record at the end and keeps the keys distinct. -/
theorem C8_ordered_unique_registry_witness :
    (ModalPanel.show ⟨[("a", ⟨true, 0, 0⟩)]⟩ "b" 7 ⟨true, 0⟩).1.components
      = [("a", ⟨true, 0, 0⟩)] ++ [("b", ⟨true, 0, 7⟩)] ∧
    (panelKeys
      (ModalPanel.show ⟨[("a", ⟨true, 0, 0⟩)]⟩ "b" 7 ⟨true, 0⟩).1).Nodup :=
  ⟨((C8_ordered_unique_registry ⟨[("a", ⟨true, 0, 0⟩)]⟩ "b" 7 ⟨true, 0⟩ "a"
      (by decide)).2.2 (by decide)).1,
   (C8_ordered_unique_registry ⟨[("a", ⟨true, 0, 0⟩)]⟩ "b" 7 ⟨true, 0⟩ "a"
      (by decide)).1⟩

/-- C6: on each of the 12 directional placements, `reverse` is an
involution, preserves the secondary alignment, and flips the primary
side to its 180-degree opposite. -/
theorem C6_reverse_involution (p : PopoverPlacement) :
    p.reverse.reverse = p ∧
    p.reverse.alignment = p.alignment ∧
    p.reverse.side = p.side.opposite := by
  cases p <;> exact ⟨rfl, rfl, rfl⟩

/-- C7: an unrecognized placement string resolves to the default
placement (bottom, centered), so `getPopoverFrame` yields the very same
frame as for the default placement on every measured layout. -/
theorem C7_unknown_placement_default (content child : Frame)
    (offsets : OffsetRect) :
    getPopoverFrame content child offsets "diagonal"
      = getPopoverFrame content child offsets "bottom" := by
  have h1 : PopoverPlacements.parse "diagonal" PLACEMENT_DEFAULT
      = PopoverPlacement.bottom := by decide
  have h2 : PopoverPlacements.parse "bottom" PLACEMENT_DEFAULT
      = PopoverPlacement.bottom := by decide
  unfold getPopoverFrame
  rw [h1, h2]

end UIKitten
